import Mathlib

/-!
# Verification of the tcds-sidecar credential / delivery core

Shallow embedding of the credential-lifecycle core of the `tcds-sidecar`
service: the expiring token cache (`src/app/main.py`), the locator-ladder
probing and login phases of the session extractors
(`src/app/extractors/agencyzoom.py`, `mmi.py`, `rpr.py`), the SMS delivery
settle-check (`agencyzoom.py`, `src/vm-sms-service.py`), the Delphi response
stabilizer (`src/app/extractors/delphi.py`), and the concurrent session
endpoint (`src/app/main.py`).

Python dictionaries are modelled as association lists, wall-clock time as
`Nat`, page state (which elements resolve, what samples a poll sees) as
explicit function/list parameters, and the cooperative `asyncio` scheduling
of the session endpoint as an interleaving of the atomic segments between
`await` points.
-/

namespace TcdsSidecar

/-! ## Response Stabilizer (`DelphiProxy.send_message`, src/app/extractors/delphi.py)

The polling loop samples `_extract_latest_response()` once per iteration.
We model a run by the finite list of samples the loop would observe before
the wall-clock deadline cuts it off: one list element per loop iteration,
an exhausted list meaning `time.time() - start_time < timeout` went false. -/

/-- Instrumented outcome of the polling loop: `converged` when the
`stable_count >= 4 and last_response` break fired, `timedOut` when the
while-condition ended the loop first.  The source returns a plain string in
both cases; this type records which exit was taken. -/
inductive StabOutcome where
  | converged (text : String)
  | timedOut (text : String)
  deriving DecidableEq, Repr

/-- One iteration body of the loop in `send_message` (delphi.py:191-195):
`if response and response != last_response and not response.startswith("Error"):
last_response = response; stable_count = 0  else: stable_count += 1`.
State is `(last_response, stable_count)`. -/
def stabUpdate (response : String) (st : String × Nat) : String × Nat :=
  if response ≠ "" ∧ response ≠ st.1 ∧ ¬ response.startsWith "Error" then
    (response, 0)
  else
    (st.1, st.2 + 1)

/-- The polling loop of `send_message` (delphi.py:188-201) over the list of
samples it observes; returns the instrumented exit. -/
def sendMessageLoop : List String → String → Nat → StabOutcome
  | [], last, _ => .timedOut last
  | response :: rest, last, cnt =>
      let st := stabUpdate response (last, cnt)
      if st.2 ≥ 4 ∧ st.1 ≠ "" then .converged st.1
      else sendMessageLoop rest st.1 st.2

/-- The polling loop started from the source's initial state
`last_response = ""`, `stable_count = 0` (delphi.py:185-186). -/
def sendMessageOutcome (samples : List String) : StabOutcome :=
  sendMessageLoop samples "" 0

/-- The string `send_message` actually returns (delphi.py:205):
`last_response if last_response else "No response received"` — the same
expression on both the converged and the timed-out path. -/
def sendMessageResult (samples : List String) : String :=
  match sendMessageOutcome samples with
  | .converged t => if t = "" then "No response received" else t
  | .timedOut t => if t = "" then "No response received" else t

/-- The stabilization loop as claim C1 words it: the counter tracks the
literal previous sample, resets to zero whenever the current sample differs
from the previous one or is empty or is an error marker, and convergence is
declared once the counter reaches the threshold 4 of consecutive unchanged,
non-empty samples, returning that text (`none` = no convergence before the
samples ran out). -/
def claimStabLoop : List String → String → Nat → Option String
  | [], _, _ => none
  | response :: rest, prev, cnt =>
      if response ≠ prev ∨ response = "" ∨ response.startsWith "Error" then
        claimStabLoop rest response 0
      else
        let cnt' := cnt + 1
        if cnt' ≥ 4 then some response else claimStabLoop rest response cnt'

/-- Claim C1's loop from the initial state. -/
def claimStabilize (samples : List String) : Option String :=
  claimStabLoop samples "" 0

/-- The stabilization loop as amended: the counter resets to zero exactly
when the sample is non-empty, is not an error marker, and differs from the
stored last-accepted text (which is then replaced by the sample); in every
other case — sample equal to the stored text, empty, or an error marker —
the counter increments and the stored text is kept; convergence is declared
once the counter reaches 4 with a non-empty stored text, returning it. -/
def amendedStabLoop : List String → String → Nat → StabOutcome
  | [], stored, _ => .timedOut stored
  | response :: rest, stored, cnt =>
      if response = "" ∨ response.startsWith "Error" then
        checkBreak rest stored (cnt + 1)
      else if response = stored then
        checkBreak rest stored (cnt + 1)
      else
        checkBreak rest response 0
where
  /-- Shared break test: converge when the counter has reached 4 and a
  non-empty text is stored, otherwise keep polling. -/
  checkBreak (rest : List String) (stored : String) (cnt : Nat) : StabOutcome :=
    if cnt ≥ 4 ∧ stored ≠ "" then .converged stored
    else amendedStabLoop rest stored cnt

/-- The amended loop from the initial state. -/
def amendedStabilize (samples : List String) : StabOutcome :=
  amendedStabLoop samples "" 0

/-- The source loop and the amended description take identical steps from any
state. -/
theorem sendMessageLoop_eq_amended (samples : List String) :
    ∀ last cnt, sendMessageLoop samples last cnt = amendedStabLoop samples last cnt := by
  induction samples with
  | nil => intro last cnt; rw [sendMessageLoop, amendedStabLoop]
  | cons response rest ih =>
      intro last cnt
      rw [sendMessageLoop, amendedStabLoop, stabUpdate]
      by_cases hempty : response = ""
      · simp only [hempty, ne_eq, not_true_eq_false, false_and, if_false, if_true,
          true_or, amendedStabLoop.checkBreak, ih]
      · by_cases herr : response.startsWith "Error"
        · simp only [herr, not_true_eq_false, and_false, if_false, hempty, false_or,
            if_true, or_true, amendedStabLoop.checkBreak, ih]
        · by_cases hsame : response = last
          · subst hsame
            simp [hempty, herr, amendedStabLoop.checkBreak, ih]
          · simp [hempty, herr, hsame, amendedStabLoop.checkBreak, ih]

/-- A converged exit always carries a non-empty text: the break condition
requires `last_response` to be truthy. -/
theorem converged_text_ne_empty (samples : List String) :
    ∀ last cnt t, sendMessageLoop samples last cnt = .converged t → t ≠ "" := by
  induction samples with
  | nil => intro last cnt t h; exact absurd h (by simp [sendMessageLoop])
  | cons response rest ih =>
      intro last cnt t h
      rw [sendMessageLoop] at h
      by_cases hbreak : (stabUpdate response (last, cnt)).2 ≥ 4 ∧
          (stabUpdate response (last, cnt)).1 ≠ ""
      · rw [if_pos hbreak] at h
        cases h
        exact hbreak.2
      · rw [if_neg hbreak] at h
        exact ih _ _ _ h

/-- C1: the claim's reset rule disagrees with the code.  On the sample
sequence `["a","","","",""]` the code increments the counter at each empty
sample and declares convergence with text `"a"`, while the claim's rule
(reset on empty) never converges on these samples. -/
theorem tcds_C1_counterexample :
    sendMessageOutcome ["a", "", "", "", ""] = .converged "a" ∧
      claimStabilize ["a", "", "", "", ""] = none := by
  constructor <;> decide

/-- C1 (amended): the counter is reset to zero exactly when the sample is
non-empty, not an error marker, and differs from the stored last-accepted
text (which is then replaced); for a sample that is empty, an error marker,
or equal to the stored text, the counter is incremented; convergence is
declared once the counter reaches 4 with a non-empty stored text, and that
stored text is returned. -/
theorem tcds_C1_stabilizer (samples : List String) :
    sendMessageOutcome samples = amendedStabilize samples :=
  sendMessageLoop_eq_amended samples "" 0

/-- C6: the result of `send_message` does not distinguish the two exits.  A
run that converges with text `"x"` and a run that hits the deadline with
best-effort text `"x"` return the very same string. -/
theorem tcds_C6_counterexample :
    sendMessageOutcome ["x", "x", "x", "x", "x"] = .converged "x" ∧
      sendMessageOutcome ["x"] = .timedOut "x" ∧
      sendMessageResult ["x", "x", "x", "x", "x"] = sendMessageResult ["x"] := by
  refine ⟨by decide, by decide, by decide⟩

/-- C6 (amended): `send_message` returns only a plain string — the stored
text on both exits (with the fixed fallback `"No response received"` when it
is empty) — so whenever a converged run and a timed-out run end with the same
non-empty text, the caller receives identical values and cannot tell which
outcome occurred. -/
theorem tcds_C6_result_indistinguishable (s₁ s₂ : List String) (t : String)
    (h₁ : sendMessageOutcome s₁ = .converged t)
    (h₂ : sendMessageOutcome s₂ = .timedOut t) :
    sendMessageResult s₁ = sendMessageResult s₂ := by
  unfold sendMessageResult
  rw [h₁, h₂]

/-- Concrete witness for the C6 indistinguishability theorem. -/
theorem tcds_C6_result_indistinguishable_witness :
    sendMessageResult ["x", "x", "x", "x", "x"] = sendMessageResult ["x"] :=
  tcds_C6_result_indistinguishable ["x", "x", "x", "x", "x"] ["x"] "x"
    (by decide) (by decide)

/-! ## Expiring cache (`get_cached` / `set_cached`, src/app/main.py:178-193)

`token_cache` is a Python dict from key to a dict that carries the payload
fields plus `"expiresAt"`.  We model it as an association list from key to a
`CacheEntry` holding the payload and the absolute expiry, and `datetime.now()`
as a `Nat` passed to each operation.  TTL arithmetic (`now + timedelta(hours=
ttl_hours)`) becomes `now + ttl` in the same abstract time unit. -/

/-- One stored cache value: the payload fields of the cached dict together
with its `"expiresAt"` timestamp. -/
structure CacheEntry where
  data : List (String × String)
  expiresAt : Nat
  deriving DecidableEq, Repr

/-- The `token_cache` dict. -/
def TokenCache := List (String × CacheEntry)

/-- Dict lookup (`key in token_cache` / `token_cache[key]`). -/
def cacheLookup : TokenCache → String → Option CacheEntry
  | [], _ => none
  | (k, e) :: rest, key => if k = key then some e else cacheLookup rest key

/-- Dict deletion (`del token_cache[key]`). -/
def cacheErase : TokenCache → String → TokenCache
  | [], _ => []
  | (k, e) :: rest, key =>
      if k = key then cacheErase rest key else (k, e) :: cacheErase rest key

/-- Dict assignment (`token_cache[key] = ...`): unconditional replacement. -/
def cacheInsert (cache : TokenCache) (key : String) (e : CacheEntry) : TokenCache :=
  (key, e) :: cacheErase cache key

/-- `get_cached` (main.py:178-185): return the entry while
`expiresAt > now`, otherwise delete it and return `None`.  The result pairs
the returned value with the cache state after the call. -/
def get_cached (cache : TokenCache) (key : String) (now : Nat) :
    Option CacheEntry × TokenCache :=
  match cacheLookup cache key with
  | some e => if now < e.expiresAt then (some e, cache) else (none, cacheErase cache key)
  | none => (none, cache)

/-- `set_cached` (main.py:187-193): store the payload with expiry
`now + ttl`, replacing any existing entry for the key. -/
def set_cached (cache : TokenCache) (key : String) (data : List (String × String))
    (ttl now : Nat) : TokenCache :=
  cacheInsert cache key ⟨data, now + ttl⟩

/-- Looking up a key right after inserting it finds the inserted entry. -/
theorem cacheLookup_insert (cache : TokenCache) (key : String) (e : CacheEntry) :
    cacheLookup (cacheInsert cache key e) key = some e := by
  simp [cacheInsert, cacheLookup]

/-- Erasure removes the key. -/
theorem cacheLookup_erase (cache : TokenCache) (key : String) :
    cacheLookup (cacheErase cache key) key = none := by
  induction cache with
  | nil => rfl
  | cons kv rest ih =>
      obtain ⟨k, e⟩ := kv
      by_cases h : k = key
      · simpa [cacheErase, h] using ih
      · simpa [cacheErase, cacheLookup, h] using ih

/-- C3: `set_cached` followed immediately by `get_cached` returns the stored
payload; once the current time passes the stored expiry, `get_cached` returns
absent and removes the entry, and every later `get_cached` with no
intervening `set_cached` also returns absent and leaves the cache
unchanged. -/
theorem tcds_C3_cache_expiry (cache : TokenCache) (key : String)
    (data : List (String × String)) (ttl now : Nat) (httl : 0 < ttl) :
    let c₁ := set_cached cache key data ttl now
    (get_cached c₁ key now).1 = some ⟨data, now + ttl⟩ ∧
      (∀ later, now + ttl < later →
        (get_cached c₁ key later).1 = none ∧
        cacheLookup (get_cached c₁ key later).2 key = none ∧
        ∀ anytime, get_cached (get_cached c₁ key later).2 key anytime =
          (none, (get_cached c₁ key later).2)) := by
  intro c₁
  have hfind : cacheLookup c₁ key = some ⟨data, now + ttl⟩ :=
    cacheLookup_insert cache key _
  refine ⟨?_, ?_⟩
  · rw [get_cached, hfind]
    simp [Nat.lt_add_of_pos_right httl]
  · intro later hlater
    have hexp : ¬ later < now + ttl := by omega
    have hget : get_cached c₁ key later = (none, cacheErase c₁ key) := by
      rw [get_cached, hfind]
      simp [hexp]
    rw [hget]
    refine ⟨rfl, cacheLookup_erase c₁ key, ?_⟩
    intro anytime
    rw [get_cached, cacheLookup_erase c₁ key]

/-- Concrete witness for the C3 cache theorem at key `"agencyzoom"`,
payload `[("token", "t")]`, TTL `1`, stored at time `0` and read back at
times `0` and `2`. -/
theorem tcds_C3_cache_expiry_witness :
    (get_cached (set_cached [] "agencyzoom" [("token", "t")] 1 0) "agencyzoom" 0).1 =
      some ⟨[("token", "t")], 1⟩ ∧
    (get_cached (set_cached [] "agencyzoom" [("token", "t")] 1 0) "agencyzoom" 2).1 =
      none := by
  have h := tcds_C3_cache_expiry [] "agencyzoom" [("token", "t")] 1 0 (by decide)
  exact ⟨h.1, (h.2 2 (by decide)).1⟩

/-! ## Locator ladders

Every extractor locates each login field with the same loop shape
(`agencyzoom.py:69-106`, `mmi.py:67-101`, `rpr.py:72-99`):

    field = None
    for selector in [s1, s2, ...]:
        try:
            field = await page.wait_for_selector(selector, ...)  # or query_selector
            if field:
                break
        except:
            continue

The page is modelled by a resolution function `resolve : String → Option Elem`
(`none` covers both a selector that raises and one that returns `None`).  The
instrumented probe also returns the list of selectors that were actually
evaluated, in order. -/

/-- The selector loop, instrumented with the selectors it evaluates. -/
def probeLadder {Elem : Type} (resolve : String → Option Elem) :
    List String → Option Elem × List String
  | [] => (none, [])
  | sel :: rest =>
      match resolve sel with
      | some e => (some e, [sel])
      | none =>
          let r := probeLadder resolve rest
          (r.1, sel :: r.2)

/-- C7: in a ladder `[a, b, c]` where `a` does not resolve and `b` resolves
to `e`, the loop returns `b`'s element having evaluated exactly `[a, b]` —
`c` is never evaluated and nothing is merged after the first hit. -/
theorem tcds_C7_ladder_first_match {Elem : Type} (resolve : String → Option Elem)
    (a b c : String) (e : Elem) (ha : resolve a = none) (hb : resolve b = some e) :
    probeLadder resolve [a, b, c] = (some e, [a, b]) := by
  rw [probeLadder, ha, probeLadder, hb]

/-- Concrete witness for the C7 ladder theorem: only the second selector of
the AgencyZoom email ladder resolves. -/
theorem tcds_C7_ladder_first_match_witness :
    probeLadder
        (fun sel => if sel = "input[type='email']" then some 0 else (none : Option Nat))
        ["input[name='email']", "input[type='email']", "#email"] =
      (some 0, ["input[name='email']", "input[type='email']"]) :=
  tcds_C7_ladder_first_match _ "input[name='email']" "input[type='email']" "#email" 0
    (by decide) (by decide)

/-! ## Login-field handling in `extract` (C4)

`AgencyZoomExtractor.extract` (agencyzoom.py:68-112): the email ladder and
the password ladder each fail the attempt with a field-naming error when
exhausted; the login-button ladder does not — when no button selector
resolves the code presses Enter on the password field instead
(agencyzoom.py:108-112).

`MMIExtractor.extract` (mmi.py:66-113): email and password behave the same;
for submit the selector ladder is followed by a scan of all buttons for
login-like text, and only if both find nothing does the attempt fail with
"Could not find login button". -/

/-- How the login form was submitted. -/
inductive SubmitMethod where
  | clickButton
  | pressEnter
  deriving DecidableEq, Repr

/-- Outcome of the credential-submission phase of `extract`. -/
inductive LoginPhase where
  | failure (error : String)
  | submitted (method : SubmitMethod)
  deriving DecidableEq, Repr

/-- The AgencyZoom `extract` credential phase (agencyzoom.py:68-112) over a
page modelled by `resolve`. -/
def azExtractLoginPhase {Elem : Type} (resolve : String → Option Elem) : LoginPhase :=
  match (probeLadder resolve ["input[name='email']", "input[type='email']", "#email"]).1 with
  | none => .failure "Could not find email field"
  | some _ =>
    match (probeLadder resolve
        ["input[name='password']", "input[type='password']", "#password"]).1 with
    | none => .failure "Could not find password field"
    | some _ =>
      match (probeLadder resolve
          ["button[type='submit']", "input[type='submit']", ".btn-primary"]).1 with
      | some _ => .submitted .clickButton
      | none => .submitted .pressEnter

/-- The MMI `extract` credential phase (mmi.py:66-113).  `buttons` lists the
lowercased inner text of every `<button>` on the page, for the text-scan
fallback (mmi.py:103-110). -/
def mmiExtractLoginPhase {Elem : Type} (resolve : String → Option Elem)
    (buttons : List String) : LoginPhase :=
  match (probeLadder resolve ["input[type='email']", "input[name='email']",
      "input#email", "input[placeholder*='email' i]"]).1 with
  | none => .failure "Could not find email field"
  | some _ =>
    match resolve "input[type='password']" with
    | none => .failure "Could not find password field"
    | some _ =>
      match (probeLadder resolve
          ["button[type='submit']", "input[type='submit']", "button.btn-primary"]).1 with
      | some _ => .submitted .clickButton
      | none =>
          if buttons.any (fun t =>
              ["sign in", "log in", "login", "submit"].any (fun w => (t.splitOn w).length > 1))
          then .submitted .clickButton
          else .failure "Could not find login button"

/-- C4: when the AgencyZoom email and password ladders resolve but no
login-button selector does, `extract` does not fail with a field-not-found
error for the submit field — it proceeds by pressing Enter on the password
field. -/
theorem tcds_C4_counterexample :
    azExtractLoginPhase
        (fun sel => if sel = "input[name='email']" ∨ sel = "input[name='password']"
          then some 0 else (none : Option Nat)) =
      .submitted .pressEnter := by
  decide

/-- C4 (amended): for the email and password fields both extractors fail the
attempt with an error naming the field when the ladder is exhausted; for the
submit control AgencyZoom's `extract` never fails — it falls back to pressing
Enter on the password field — while MMI's `extract` fails with "Could not
find login button" only after both its selector ladder and its button-text
scan find nothing. -/
theorem tcds_C4_field_not_found {Elem : Type} (resolve : String → Option Elem)
    (buttons : List String) :
    ((probeLadder resolve ["input[name='email']", "input[type='email']", "#email"]).1 = none →
      azExtractLoginPhase resolve = .failure "Could not find email field") ∧
    (∀ e, (probeLadder resolve
        ["input[name='email']", "input[type='email']", "#email"]).1 = some e →
      (probeLadder resolve
        ["input[name='password']", "input[type='password']", "#password"]).1 = none →
      azExtractLoginPhase resolve = .failure "Could not find password field") ∧
    (∀ e p, (probeLadder resolve
        ["input[name='email']", "input[type='email']", "#email"]).1 = some e →
      (probeLadder resolve
        ["input[name='password']", "input[type='password']", "#password"]).1 = some p →
      (probeLadder resolve
        ["button[type='submit']", "input[type='submit']", ".btn-primary"]).1 = none →
      azExtractLoginPhase resolve = .submitted .pressEnter) ∧
    (∀ e, (probeLadder resolve ["input[type='email']", "input[name='email']",
        "input#email", "input[placeholder*='email' i]"]).1 = some e →
      resolve "input[type='password']" = some e →
      (probeLadder resolve
        ["button[type='submit']", "input[type='submit']", "button.btn-primary"]).1 = none →
      ¬ buttons.any (fun t =>
          ["sign in", "log in", "login", "submit"].any (fun w => (t.splitOn w).length > 1)) →
      mmiExtractLoginPhase resolve buttons = .failure "Could not find login button") := by
  refine ⟨?_, ?_, ?_, ?_⟩
  · intro h; rw [azExtractLoginPhase, h]
  · intro e he hp; rw [azExtractLoginPhase, he, hp]
  · intro e p he hp hb; rw [azExtractLoginPhase, he, hp, hb]
  · intro e he hp hb hscan
    rw [mmiExtractLoginPhase, he, hp, hb, if_neg hscan]

/-- Concrete witness for the C4 amended theorem: a page where nothing
resolves at all, so the email branch fires for both extractors. -/
theorem tcds_C4_field_not_found_witness :
    azExtractLoginPhase (fun _ => (none : Option Nat)) =
      .failure "Could not find email field" :=
  (tcds_C4_field_not_found (fun _ => (none : Option Nat)) []).1 (by decide)

/-! ## SMS delivery settle-check (C5)

After clicking Send, `AgencyZoomExtractor.send_sms` waits and then runs
(agencyzoom.py:361-369):

    error_el = await page.query_selector(".alert-danger, .toast-error, .error-message")
    if error_el:
        is_visible = await error_el.is_visible()
        if is_visible:
            error_text = await error_el.inner_text()
            return {"success": False, "error": f"Send failed: {error_text}"}
    return {"success": True}

The VM service's `send_sms` (vm-sms-service.py:204-212) has the same control
flow but queries the single selector `.alert-danger` and words its failure
as `f"AgencyZoom error: {error_text}"`.

`query_selector` returns the *first* element matching the selector in
document order.  We model the page after the settle wait by the list of
elements matching the respective error selector, in document order, each as
`(visible, text)`. -/

/-- Result of `send_sms` once the Send click has happened. -/
inductive SmsResult where
  | ok
  | failed (error : String)
  deriving DecidableEq, Repr

/-- The post-submit settle check of `AgencyZoomExtractor.send_sms`
(agencyzoom.py:361-369): look at the first matching error element only. -/
def azSettleCheck (errorEls : List (Bool × String)) : SmsResult :=
  match errorEls with
  | [] => .ok
  | (visible, text) :: _ => if visible then .failed ("Send failed: " ++ text) else .ok

/-- The post-submit settle check of the VM service's `send_sms`
(vm-sms-service.py:204-212): same shape, its own failure wording. -/
def vmSettleCheck (errorEls : List (Bool × String)) : SmsResult :=
  match errorEls with
  | [] => .ok
  | (visible, text) :: _ =>
      if visible then .failed ("AgencyZoom error: " ++ text) else .ok

/-- C5: the check is not an "iff no error-indicator element is visible".  On
a page whose first matching element is hidden while a later one is visible,
both `send_sms` implementations declare success even though a visible error
indicator is present. -/
theorem tcds_C5_counterexample :
    azSettleCheck [(false, "stale hidden banner"), (true, "Message failed")] = .ok ∧
      vmSettleCheck [(false, "stale hidden banner"), (true, "Message failed")] = .ok ∧
      ∃ el ∈ [(false, "stale hidden banner"), (true, "Message failed")], el.1 = true := by
  exact ⟨rfl, rfl, (true, "Message failed"), by simp, rfl⟩

/-- C5 (amended): in both `send_sms` implementations the submission result
is success if and only if the first element matching the error selector is
absent or not visible; when that first element is visible the result is a
failure whose message carries the element's text (`"Send failed: {text}"` in
the extractor, `"AgencyZoom error: {text}"` in the VM service), and nothing
further runs after this check. -/
theorem tcds_C5_settle_check (errorEls : List (Bool × String)) :
    (azSettleCheck errorEls = .ok ↔
      (∀ el, errorEls.head? = some el → el.1 = false)) ∧
    (vmSettleCheck errorEls = .ok ↔
      (∀ el, errorEls.head? = some el → el.1 = false)) ∧
    (∀ el, errorEls.head? = some el → el.1 = true →
      azSettleCheck errorEls = .failed ("Send failed: " ++ el.2) ∧
        vmSettleCheck errorEls = .failed ("AgencyZoom error: " ++ el.2)) := by
  cases errorEls with
  | nil => simp [azSettleCheck, vmSettleCheck]
  | cons el rest =>
      obtain ⟨visible, text⟩ := el
      cases visible <;> simp [azSettleCheck, vmSettleCheck]

/-- Concrete witness for the C5 settle-check theorem: a visible
`.alert-danger` element makes both implementations fail with their own
message carrying its text. -/
theorem tcds_C5_settle_check_witness :
    azSettleCheck [(true, "Invalid number")] = .failed "Send failed: Invalid number" ∧
      vmSettleCheck [(true, "Invalid number")] =
        .failed "AgencyZoom error: Invalid number" :=
  (tcds_C5_settle_check [(true, "Invalid number")]).2.2 (true, "Invalid number") rfl rfl

/-! ## Phone-number normalization (C9)

`AgencyZoomExtractor.send_sms` (agencyzoom.py:196-201) and the VM service's
`send_sms` (vm-sms-service.py:48-51):

    normalized_phone = ''.join(c for c in phone_number if c.isdigit())
    if len(normalized_phone) == 10:
        normalized_phone = '1' + normalized_phone
    elif normalized_phone.startswith('1') and len(normalized_phone) == 11:
        pass  # Already has country code
-/

/-- The digit subsequence of the input. -/
def digitsOf (s : String) : String :=
  String.mk (s.toList.filter Char.isDigit)

/-- The normalization exactly as written in the source, including the no-op
`elif` branch. -/
def normalizePhone (phoneNumber : String) : String :=
  let normalized := digitsOf phoneNumber
  if normalized.length = 10 then
    "1" ++ normalized
  else if normalized.startsWith "1" ∧ normalized.length = 11 then
    normalized
  else
    normalized

/-- C9: `send_sms` normalizes any input to exactly its digit subsequence,
prepending the country code `'1'` precisely when that digit string has
length 10; every other digit string — including an 11-digit one starting
with `'1'` — is used unchanged. -/
theorem tcds_C9_phone_normalization (phoneNumber : String) :
    normalizePhone phoneNumber =
      (if (digitsOf phoneNumber).length = 10
        then "1" ++ digitsOf phoneNumber
        else digitsOf phoneNumber) := by
  rw [normalizePhone]
  by_cases h10 : (digitsOf phoneNumber).length = 10
  · rw [if_pos h10, if_pos h10]
  · rw [if_neg h10, if_neg h10]
    split <;> rfl

/-! ## Browser / playwright cleanup (C10)

`AgencyZoomExtractor.extract` and `.send_sms`, `RPRExtractor.extract` and
`MMIExtractor.extract` all share this shape (agencyzoom.py:36-174 and
376-381, rpr.py:201-207, mmi.py:171-177):

    if not email or not password:
        return {...}                     # early return, before the try block
    try:
        self.playwright = await async_playwright().start()
        self.browser = await self.playwright.chromium.launch(...)
        ... page automation, may return a result dict or raise ...
    except Exception as e:
        return {"success": False, "error": str(e)}
    finally:
        if self.browser:
            await self.browser.close()
        if self.playwright:
            await self.playwright.stop()
        self.browser = None
        self.playwright = None

The page-automation steps never touch the two instance fields, so an
operation is characterized by where it stops: the early credentials return
(no `finally`), an exception before either assignment, an exception between
the two assignments, or anything after both assignments — a success dict, a
typed-failure dict, or a raise all leave the same field state when the
`finally` block runs. -/

/-- The two instance fields the claim is about; `some ()` models a live
handle, `none` models Python `None`. -/
structure ExtractorFields where
  browser : Option Unit
  playwright : Option Unit
  deriving DecidableEq, Repr

/-- External effects performed by the `finally` block. -/
inductive CleanupAction where
  | closeBrowser
  | stopPlaywright
  deriving DecidableEq, Repr

/-- How far one call to `extract` / `send_sms` gets. -/
inductive OpExit where
  | missingCreds
  | raiseBeforePlaywright
  | raiseBeforeBrowser
  | returnsOrRaisesAfterBrowser
  deriving DecidableEq, Repr

/-- Field state when control reaches the `finally` block. -/
def fieldsAtFinally : OpExit → ExtractorFields → ExtractorFields
  | .missingCreds, st => st
  | .raiseBeforePlaywright, st => st
  | .raiseBeforeBrowser, st => { st with playwright := some () }
  | .returnsOrRaisesAfterBrowser, _ => ⟨some (), some ()⟩

/-- The `finally` block: close a live browser, stop a live playwright, then
null both fields. -/
def finallyBlock (st : ExtractorFields) : ExtractorFields × List CleanupAction :=
  (⟨none, none⟩,
    (if st.browser.isSome then [CleanupAction.closeBrowser] else []) ++
      (if st.playwright.isSome then [CleanupAction.stopPlaywright] else []))

/-- One extractor operation over the instance fields: the early
credentials-missing return skips the `try`/`finally` entirely; every other
exit runs the `finally` block on the fields it reached it with. -/
def runExtractorOp (exit : OpExit) (st : ExtractorFields) :
    ExtractorFields × List CleanupAction :=
  match exit with
  | .missingCreds => (st, [])
  | e => finallyBlock (fieldsAtFinally e st)

/-- C10: from the state every call starts in (both fields `None`, as
`__init__` sets and as every completed call re-establishes), the fields are
`None` again after the call no matter how it exits, and any call that ran
the body far enough to open the browser closes it and stops playwright in
the `finally` block. -/
theorem tcds_C10_cleanup (exit : OpExit) (st : ExtractorFields)
    (hb : st.browser = none) (hp : st.playwright = none) :
    (runExtractorOp exit st).1.browser = none ∧
      (runExtractorOp exit st).1.playwright = none ∧
      (exit = .returnsOrRaisesAfterBrowser →
        (runExtractorOp exit st).2 =
          [CleanupAction.closeBrowser, CleanupAction.stopPlaywright]) := by
  cases exit <;>
    simp [runExtractorOp, finallyBlock, fieldsAtFinally, hb, hp]

/-! ## Concurrency of `/agencyzoom/session` (C8)

`get_agencyzoom_session` (main.py:307-343) is an `async` handler running on
`asyncio`'s single-threaded cooperative scheduler: code between `await`
points is atomic, and tasks interleave at `await`.  The handler does

    cached = get_cached(cache_key)          # synchronous — atomic
    if cached: return cached
    result = await agencyzoom_extractor.extract()   # yields; extraction runs
    if result.get("success"): set_cached(cache_key, result)
    return result

There is no lock and no in-flight registry anywhere in `main.py`.  We model
N concurrent requests as callers stepped by an arbitrary schedule; each
caller is atomic up to its first `await`: phase `ready` performs the cache
check, phase `missed` completes the awaited extraction, stores and returns
its result.  Sessions are identified by the index of the extraction that
produced them (each browser login harvests fresh cookies, so distinct
extractions give distinct sessions).  Cache expiry plays no role in this
claim — the modelled entry, once stored, is live. -/

/-- Phase of one concurrent `get_agencyzoom_session` caller. -/
inductive CallerPhase where
  | ready
  | missed
  | done (fromCache : Bool) (session : Nat)
  deriving DecidableEq, Repr

/-- The atomic segment a caller runs when scheduled, given the shared cache
and the count of extractions performed so far: `ready` runs the synchronous
cache check; `missed` finishes `await extract()` (yielding the session
stamped with the extraction index), then stores it and returns. -/
def stepCaller (cache : Option Nat) (extractions : Nat) :
    CallerPhase → CallerPhase × Option Nat × Nat
  | .ready =>
      match cache with
      | some s => (.done true s, cache, extractions)
      | none => (.missed, cache, extractions)
  | .missed => (.done false extractions, some extractions, extractions + 1)
  | .done b s => (.done b s, cache, extractions)

/-- Run the scheduled caller's next atomic segment (identity when the index
is out of range). -/
def updateCaller : List CallerPhase → Nat → Option Nat → Nat →
    List CallerPhase × Option Nat × Nat
  | [], _, cache, ext => ([], cache, ext)
  | c :: rest, 0, cache, ext =>
      let r := stepCaller cache ext c
      (r.1 :: rest, r.2)
  | c :: rest, i + 1, cache, ext =>
      let r := updateCaller rest i cache ext
      (c :: r.1, r.2)

/-- Shared state of the endpoint plus the phases of the concurrent callers. -/
structure EndpointState where
  callers : List CallerPhase
  cache : Option Nat
  extractions : Nat
  deriving DecidableEq, Repr

/-- One scheduler step. -/
def sfStep (st : EndpointState) (i : Nat) : EndpointState :=
  let r := updateCaller st.callers i st.cache st.extractions
  ⟨r.1, r.2.1, r.2.2⟩

/-- N concurrent requests against an empty cache, interleaved by
`schedule`. -/
def sfRun (n : Nat) (schedule : List Nat) : EndpointState :=
  schedule.foldl sfStep ⟨List.replicate n .ready, none, 0⟩

/-- Number of callers that completed by running their own extraction. -/
def extractedCount (callers : List CallerPhase) : Nat :=
  callers.countP fun c =>
    match c with
    | .done false _ => true
    | _ => false

/-- One scheduler step changes the extraction counter by exactly the change
in the number of callers completed-by-own-extraction. -/
theorem updateCaller_extractions (cs : List CallerPhase) :
    ∀ (i : Nat) (cache : Option Nat) (ext : Nat),
      (updateCaller cs i cache ext).2.2 + extractedCount cs =
        ext + extractedCount (updateCaller cs i cache ext).1 := by
  induction cs with
  | nil => intro i cache ext; rfl
  | cons c rest ih =>
      intro i cache ext
      match i with
      | 0 =>
          match c with
          | .ready =>
              match cache with
              | some s => simp [updateCaller, stepCaller, extractedCount]
              | none => simp [updateCaller, stepCaller, extractedCount]
          | .missed =>
              simp [updateCaller, stepCaller, extractedCount, List.countP_cons]
              omega
          | .done b s => simp [updateCaller, stepCaller, extractedCount]
      | i + 1 =>
          have h := ih i cache ext
          simp only [updateCaller, extractedCount, List.countP_cons] at h ⊢
          omega

/-- The extraction counter tracks completed-by-own-extraction callers across
any whole schedule. -/
theorem sfRun_extractions_invariant (schedule : List Nat) :
    ∀ st : EndpointState,
      (schedule.foldl sfStep st).extractions + extractedCount st.callers =
        st.extractions + extractedCount (schedule.foldl sfStep st).callers := by
  induction schedule with
  | nil => intro st; rfl
  | cons i rest ih =>
      intro st
      have hstep := updateCaller_extractions st.callers i st.cache st.extractions
      have hrest := ih (sfStep st i)
      simp only [List.foldl_cons]
      simp only [sfStep] at hrest ⊢
      omega

/-- C8: two concurrent requests that both check the empty cache before
either extraction completes (schedule: both cache checks, then both
extractions) trigger two extractions, and the two callers receive two
different sessions — not one shared extraction. -/
theorem tcds_C8_counterexample :
    (sfRun 2 [0, 1, 0, 1]).extractions = 2 ∧
      (sfRun 2 [0, 1, 0, 1]).callers = [.done false 0, .done false 1] := by
  exact ⟨rfl, rfl⟩

/-- C8 (amended): `get_agencyzoom_session` has no single-flight guard: under
every interleaving, the number of extractions performed equals the number of
callers that observed a cache miss and completed their own extraction —
concurrent miss-observers each run a separate extraction (and may receive
different Sessions), and only a caller whose cache check runs after some
completed extraction reuses the stored result without extracting. -/
theorem tcds_C8_no_single_flight (n : Nat) (schedule : List Nat) :
    (sfRun n schedule).extractions = extractedCount (sfRun n schedule).callers := by
  have hzero : extractedCount (List.replicate n CallerPhase.ready) = 0 := by
    simp [extractedCount, List.countP_eq_zero]
  have h := sfRun_extractions_invariant schedule
    ⟨List.replicate n .ready, none, 0⟩
  dsimp only at h
  rw [hzero] at h
  rw [sfRun]
  omega

/-- Concrete witness for the C10 cleanup theorem: a call from the initial
state that runs past the browser launch. -/
theorem tcds_C10_cleanup_witness :
    (runExtractorOp .returnsOrRaisesAfterBrowser ⟨none, none⟩).1.browser = none ∧
      (runExtractorOp .returnsOrRaisesAfterBrowser ⟨none, none⟩).1.playwright = none ∧
      (.returnsOrRaisesAfterBrowser = OpExit.returnsOrRaisesAfterBrowser →
        (runExtractorOp .returnsOrRaisesAfterBrowser ⟨none, none⟩).2 =
          [CleanupAction.closeBrowser, CleanupAction.stopPlaywright]) :=
  tcds_C10_cleanup .returnsOrRaisesAfterBrowser ⟨none, none⟩ rfl rfl

/-! ## Lightweight delivery with session-invalidation retry (C2)

The LightweightCall strategy itself — a direct HTTP request to the SMS
endpoint using the cached cookies and CSRF token, with 401/403 handling —
does not appear under `src/`.  Only its caller side survives:
`send_agencyzoom_sms` (main.py:355-358) primes
`agencyzoom_extractor._cached_cookies` and `_cached_csrf` from the token
cache, yet no code under `src/` ever reads those attributes;
`AgencyZoomExtractor.send_sms` in `src/` is the FullInteraction browser
workflow only. -/

/-- Response classifications of one lightweight HTTP call. -/
inductive LWResponse where
  | okWithId (messageId : String)
  | okNoId
  | status (code : Nat)
  deriving DecidableEq, Repr

/-- Overall outcome of the lightweight strategy for one delivery call. -/
inductive LWOutcome where
  | confirmed
  | ambiguousEscalate
  | failed
  deriving DecidableEq, Repr

/-- Trace of one delivery call's lightweight phase. -/
structure LWRun where
  outcome : LWOutcome
  sends : Nat
  reextractions : Nat
  cacheInvalidated : Bool
  deriving DecidableEq, Repr

/-- Is the response an authentication rejection (HTTP 401/403)? -/
def isAuthReject : LWResponse → Bool
  | .status 401 => true
  | .status 403 => true
  | _ => false

/-- Classification of a lightweight response that is not an authentication
rejection, per spec §4.3: success with an identifier is `Confirmed`, success
with only an acknowledgement is `Ambiguous` (escalate), anything else is
`Failed`. -/
def classifyNonAuth : LWResponse → LWOutcome
  | .okWithId _ => .confirmed
  | .okNoId => .ambiguousEscalate
  | .status _ => .failed

/-- Modelled from the spec: the LightweightCall delivery strategy with its
session-invalidation retry is code of this repository missing from `src/`
(main.py primes `_cached_cookies` / `_cached_csrf` for it, but only the
FullInteraction `send_sms` is present).  Following spec §4.3 and §8: issue
the lightweight call with the cached session; on HTTP 401/403 clear the
cached Session, re-run the extractor once, retry the lightweight call
exactly once with the refreshed session, and if the retry is again rejected
(or otherwise fails) the overall result is `Failed` — never a further
retry.  `send k s` is the response of the k-th lightweight call (0-based)
performed with session `s`; `cachedSession` is the session in the cache and
`freshSession` the one a re-extraction would produce. -/
def lightweightDeliver (cachedSession freshSession : Nat)
    (send : Nat → Nat → LWResponse) : LWRun :=
  let first := send 0 cachedSession
  if isAuthReject first then
    let retry := send 1 freshSession
    if isAuthReject retry then
      ⟨.failed, 2, 1, true⟩
    else
      ⟨classifyNonAuth retry, 2, 1, true⟩
  else
    ⟨classifyNonAuth first, 1, 0, false⟩

/-- The strategy is structurally bounded: it never performs more than one
re-extraction or more than two lightweight calls. -/
theorem lightweightDeliver_bounded (c f : Nat) (s : Nat → Nat → LWResponse) :
    (lightweightDeliver c f s).reextractions ≤ 1 ∧
      (lightweightDeliver c f s).sends ≤ 2 := by
  rw [lightweightDeliver]
  by_cases h : isAuthReject (s 0 c) = true
  · simp only [h, if_true]
    by_cases h2 : isAuthReject (s 1 f) = true
    · simp only [h2, if_true]
      exact ⟨Nat.le_refl 1, Nat.le_refl 2⟩
    · simp only [h2, if_false]
      exact ⟨Nat.le_refl 1, Nat.le_refl 2⟩
  · simp only [h, if_false]
    exact ⟨Nat.zero_le 1, Nat.le_succ 1⟩

/-- C2: whenever the first lightweight call is rejected with 401/403, the
cached session is invalidated and exactly one re-extraction and exactly one
retry occur; a retry that is again rejected makes the overall result
`Failed`; and no run of the strategy ever performs more than one
re-extraction or more than two lightweight calls. -/
theorem tcds_C2_session_invalid_retry (cachedSession freshSession : Nat)
    (send : Nat → Nat → LWResponse)
    (hauth : isAuthReject (send 0 cachedSession) = true) :
    let run := lightweightDeliver cachedSession freshSession send
    run.cacheInvalidated = true ∧
      run.reextractions = 1 ∧
      run.sends = 2 ∧
      (isAuthReject (send 1 freshSession) = true → run.outcome = .failed) ∧
      ∀ c f s, (lightweightDeliver c f s).reextractions ≤ 1 ∧
        (lightweightDeliver c f s).sends ≤ 2 := by
  intro run
  have hcase : run =
      if isAuthReject (send 1 freshSession) = true then
        ⟨.failed, 2, 1, true⟩
      else
        ⟨classifyNonAuth (send 1 freshSession), 2, 1, true⟩ := by
    show lightweightDeliver cachedSession freshSession send = _
    rw [lightweightDeliver]
    simp only [hauth, if_true]
  by_cases hretry : isAuthReject (send 1 freshSession) = true
  · rw [hcase, if_pos hretry]
    exact ⟨rfl, rfl, rfl, fun _ => rfl, fun c f s => lightweightDeliver_bounded c f s⟩
  · rw [hcase, if_neg hretry]
    exact ⟨rfl, rfl, rfl, fun h => absurd h hretry,
      fun c f s => lightweightDeliver_bounded c f s⟩

/-- Concrete witness for the C2 retry theorem: both lightweight calls come
back 401. -/
theorem tcds_C2_session_invalid_retry_witness :
    (lightweightDeliver 7 8 (fun _ _ => .status 401)).cacheInvalidated = true ∧
      (lightweightDeliver 7 8 (fun _ _ => .status 401)).reextractions = 1 ∧
      (lightweightDeliver 7 8 (fun _ _ => .status 401)).sends = 2 ∧
      (isAuthReject ((fun _ _ => LWResponse.status 401) 1 8) = true →
        (lightweightDeliver 7 8 (fun _ _ => .status 401)).outcome = .failed) ∧
      ∀ c f s, (lightweightDeliver c f s).reextractions ≤ 1 ∧
        (lightweightDeliver c f s).sends ≤ 2 :=
  tcds_C2_session_invalid_retry 7 8 (fun _ _ => .status 401) (by decide)

end TcdsSidecar
